import Mathlib

/-!
Verification of the Incognide MCP server
(`src/mcp_servers/incognide_mcp_server.py`).

The server is a thin relay: each exposed tool builds an argument mapping,
delegates to one shared HTTP relay (`call_incognide_action`) or issues its
own request (`list_windows`), and returns the JSON-serialized result.
We shallowly embed:

* JSON values (`JVal`) together with a model of Python's `json.dumps`,
  both in its compact default form (`dumpsC`, used by `set_target_window`,
  `get_target_window` and the error paths of `list_windows`) and in its
  `indent=2` pretty-printing form (`dumpsI`, used everywhere else);
* HTTP interaction as an oracle (`Net`) mapping the request to one of the
  four outcomes distinguished by the Python code: status 200 with a JSON
  body, a non-200 status with a body text, an `aiohttp.ClientError`, or
  any other exception;
* the process-wide target-window registry (`_target_window_id`) as an
  explicit string threaded through every call; functions return the new
  registry value, so non-mutation is visible in the type;
* every HTTP request issued during a call is recorded in an explicit
  request trace, so "exactly one request" claims are statable.

Python totality note: each embedded function is a total Lean function;
this mirrors the source, where every tool body either performs no
fallible operation or wraps it in `try/except` handlers that return a
structured value, so no exception escapes to the RPC layer.
-/

namespace Incognide

/-- A JSON value, as produced by the backend and by the server's own
structured results (Python dicts/lists/strings/numbers/booleans/None). -/
inductive JVal where
  | jNull
  | jBool (b : Bool)
  | jInt (n : Int)
  | jStr (s : String)
  | jArr (xs : List JVal)
  | jObj (kvs : List (String × JVal))

/-- Hexadecimal digit character, lower case, as in Python's json escapes. -/
def hexDigit (n : Nat) : Char :=
  if n < 10 then Char.ofNat (48 + n) else Char.ofNat (87 + n)

/-- Escape of one character inside a JSON string literal, following
Python's `json.dumps`: quote, backslash and the named control escapes,
other control characters as a compact form, everything else verbatim. -/
def escChar (c : Char) : List Char :=
  if c = '"' then ['\\', '"']
  else if c = '\\' then ['\\', '\\']
  else if c = '\n' then ['\\', 'n']
  else if c = '\t' then ['\\', 't']
  else if c = '\r' then ['\\', 'r']
  else if c = Char.ofNat 8 then ['\\', 'b']
  else if c = Char.ofNat 12 then ['\\', 'f']
  else if c.toNat < 32 then
    ['\\', 'u', '0', '0', hexDigit (c.toNat / 16), hexDigit (c.toNat % 16)]
  else [c]

/-- A JSON string literal: surrounding quotes plus escaped contents. -/
def jquote (s : String) : String :=
  ⟨'"' :: s.data.foldr (fun c acc => escChar c ++ acc) ['"']⟩

mutual
/-- Model of Python `json.dumps(v)` with the default separators
`", "` and `": "` and no indentation (compact, single line). -/
def dumpsC : JVal → String
  | .jNull => "null"
  | .jBool true => "true"
  | .jBool false => "false"
  | .jInt n => toString n
  | .jStr s => jquote s
  | .jArr xs => "[" ++ dumpsCList xs ++ "]"
  | .jObj kvs => "\x7b" ++ dumpsCObj kvs ++ "\x7d"
/-- Comma-separated compact rendering of array elements. -/
def dumpsCList : List JVal → String
  | [] => ""
  | [x] => dumpsC x
  | x :: y :: xs => dumpsC x ++ ", " ++ dumpsCList (y :: xs)
/-- Comma-separated compact rendering of object members. -/
def dumpsCObj : List (String × JVal) → String
  | [] => ""
  | [(k, v)] => jquote k ++ ": " ++ dumpsC v
  | (k, v) :: kv :: kvs => jquote k ++ ": " ++ dumpsC v ++ ", " ++ dumpsCObj (kv :: kvs)
end

/-- A run of `n` spaces. -/
def spaces (n : Nat) : String := ⟨List.replicate n ' '⟩

mutual
/-- Model of Python `json.dumps(v, indent=2)`: each element of a
non-empty container on its own line, indented two further spaces,
with item separator `","` and key separator `": "`; empty containers
are printed inline; atoms print as in the compact form.  `ind` is the
indentation of the current container's closing bracket. -/
def dumpsI (ind : Nat) : JVal → String
  | .jArr [] => "[]"
  | .jArr (x :: xs) =>
    "[\n" ++ dumpsIList (ind + 2) (x :: xs) ++ "\n" ++ spaces ind ++ "]"
  | .jObj [] => "\x7b\x7d"
  | .jObj (kv :: kvs) =>
    "\x7b\n" ++ dumpsIObj (ind + 2) (kv :: kvs) ++ "\n" ++ spaces ind ++ "\x7d"
  | v => dumpsC v
/-- Pretty rendering of the elements of a non-empty array, one per
line at indentation `ind`, separated by `",\n"`. -/
def dumpsIList (ind : Nat) : List JVal → String
  | [] => ""
  | [x] => spaces ind ++ dumpsI ind x
  | x :: y :: ys => spaces ind ++ dumpsI ind x ++ ",\n" ++ dumpsIList ind (y :: ys)
/-- Pretty rendering of the members of a non-empty object, one per
line at indentation `ind`, separated by `",\n"`. -/
def dumpsIObj (ind : Nat) : List (String × JVal) → String
  | [] => ""
  | [(k, v)] => spaces ind ++ jquote k ++ ": " ++ dumpsI ind v
  | (k, v) :: kv :: kvs =>
    spaces ind ++ jquote k ++ ": " ++ dumpsI ind v ++ ",\n" ++ dumpsIObj ind (kv :: kvs)
end

/-- Python `json.dumps(result)` (compact). -/
def json_dumps (v : JVal) : String := dumpsC v

/-- Python `json.dumps(result, indent=2)` (pretty-printed). -/
def json_dumps_indent2 (v : JVal) : String := dumpsI 0 v

/-- The fields of a JSON object (empty for non-objects). -/
def objFields : JVal → List (String × JVal)
  | .jObj kvs => kvs
  | _ => []

/-- The JSON body of a POST to `/api/studio/action`:
`payload = {"action": action, "args": args}` plus, when the effective
window id is non-empty, `payload["window_id"] = effective_window_id`.
`window_id = none` models the key being absent from the payload. -/
structure Payload where
  action : String
  args : List (String × JVal)
  window_id : Option String

/-- The four outcomes of an HTTP interaction that the Python code
distinguishes: status 200 with a parsed JSON body, any other status with
the response body text, an `aiohttp.ClientError`, or any other
exception (carrying `str(e)`). -/
inductive NetResult where
  | http200 (body : JVal)
  | httpErr (status : Nat) (bodyText : String)
  | clientErr (msg : String)
  | exn (msg : String)

/-- The network environment: what the backend answers to the POST of a
given action payload, and to the GET of `/api/studio/windows`. -/
structure Net where
  post : Payload → NetResult
  getWindows : NetResult

/-- One HTTP request issued to the backend, with its total timeout in
seconds: a POST of an action payload to `/api/studio/action`, or the
GET of `/api/studio/windows` issued by `list_windows`. -/
inductive Request where
  | post (p : Payload) (timeoutSec : Nat)
  | getWindows (timeoutSec : Nat)

/-- Python's `a or b` on strings: `b` if `a` is falsy (empty), else `a`. -/
def pyOr (a b : String) : String := if a = "" then b else a

/-- The structured failure value `{"success": False, "error": msg}`. -/
def errObj (msg : String) : JVal :=
  .jObj [("success", .jBool false), ("error", .jStr msg)]

/-- The payload built by `call_incognide_action`:
`effective_window_id = window_id or _target_window_id`; the
`window_id` key is added only if `effective_window_id` is truthy. -/
def actionPayload (reg action : String) (args : List (String × JVal))
    (window_id : String) : Payload :=
  let effective_window_id := pyOr window_id reg
  { action := action, args := args,
    window_id := if effective_window_id = "" then none else some effective_window_id }

/-- Embedding of `call_incognide_action(action, args, window_id)`:
posts the payload to `<backend>/api/studio/action` with a 30 second
timeout; on status 200 returns the parsed body unmodified; on any other
status returns `errObj ("HTTP <status>: <body>")`; on a client error
returns `errObj ("Connection error: <msg>")`; on any other exception
returns `errObj ("Error: <msg>")`.  The result triple is
(action result, registry after the call, requests issued); the
function only reads the registry, so the returned registry is `reg`. -/
def call_incognide_action (net : Net) (reg : String) (action : String)
    (args : List (String × JVal)) (window_id : String) :
    JVal × String × List Request :=
  let payload := actionPayload reg action args window_id
  let result :=
    match net.post payload with
    | .http200 body => body
    | .httpErr status errorText => errObj ("HTTP " ++ toString status ++ ": " ++ errorText)
    | .clientErr m => errObj ("Connection error: " ++ m)
    | .exn m => errObj ("Error: " ++ m)
  (result, reg, [Request.post payload 30])

/-- Embedding of `_detect_backend_url`, with the environment variable
`INCOGNIDE_BACKEND_URL` as an optional string (`os.environ.get` with
default `""`) and the reachability of each loopback port as an oracle.
The result pairs the resolved base URL with the trace of ports probed,
in order, so "used verbatim without probing" is statable. -/
def probe (portOpen : Nat → Bool) : List Nat → Option Nat × List Nat
  | [] => (none, [])
  | p :: ps =>
    if portOpen p then (some p, [p])
    else
      let r := probe portOpen ps
      (r.1, p :: r.2)

/-- The URL `http://127.0.0.1:<port>` returned for a successful probe. -/
def baseUrl (port : Nat) : String := "http://127.0.0.1:" ++ toString port

/-- Embedding of `_detect_backend_url()`: explicit non-empty override is
returned verbatim; otherwise ports 5337 then 5437 are probed and the
first open one selected; if both fail the fallback is the dev URL. -/
def detect_backend_url (env : Option String) (portOpen : Nat → Bool) :
    String × List Nat :=
  let explicit := env.getD ""
  if explicit = "" then
    match probe portOpen [5337, 5437] with
    | (some port, trace) => (baseUrl port, trace)
    | (none, trace) => ("http://127.0.0.1:5437", trace)
  else (explicit, [])

/-- The confirmation message of `set_target_window`. -/
def setTargetMessage (window_id : String) : String :=
  if window_id = "" then "Target window cleared (broadcast mode)"
  else "Target window set to: " ++ window_id

/-- The JSON object returned by `set_target_window`. -/
def setTargetVal (window_id : String) : JVal :=
  .jObj [("success", .jBool true),
         ("target_window_id", .jStr window_id),
         ("message", .jStr (setTargetMessage window_id))]

/-- The JSON object returned by `get_target_window`; `is_set` is
Python's `bool(_target_window_id)`, i.e. non-emptiness. -/
def getTargetVal (reg : String) : JVal :=
  .jObj [("success", .jBool true),
         ("target_window_id", .jStr reg),
         ("is_set", .jBool (decide (reg ≠ "")))]

/-- Embedding of the `set_target_window` tool: assigns the global
`_target_window_id` and returns a compact-dumped confirmation.  It
issues no HTTP request.  Result triple: (output, new registry, requests). -/
def set_target_window (reg window_id : String) : String × String × List Request :=
  (json_dumps (setTargetVal window_id), window_id, [])

/-- Embedding of the `get_target_window` tool: reads the registry and
returns a compact-dumped status object; no HTTP request. -/
def get_target_window (reg : String) : String × String × List Request :=
  (json_dumps (getTargetVal reg), reg, [])

/-- Embedding of the `list_windows` tool: one GET of
`/api/studio/windows` with a 10 second timeout; on 200 the body is
pretty-printed; on any other status a compact `errObj` with the
`HTTP <status>: <body>` text; the single `except Exception` handler
turns every exception (client errors included) into a compact
`errObj (str e)` with no added prefix. -/
def list_windows (net : Net) (reg : String) : String × String × List Request :=
  let out :=
    match net.getWindows with
    | .http200 body => json_dumps_indent2 body
    | .httpErr status errorText => json_dumps (errObj ("HTTP " ++ toString status ++ ": " ++ errorText))
    | .clientErr m => json_dumps (errObj m)
    | .exn m => json_dumps (errObj m)
  (out, reg, [Request.getWindows 10])

/-- The argument mapping built by `open_pane`: `type` and `position`
always; `url` or `path` (depending on `pane_type == "browser"`) only
when `content_id` is truthy; `shellType` only when `shell_type` is
truthy. -/
def openPaneArgs (pane_type content_id position shell_type : String) :
    List (String × JVal) :=
  let args := [("type", JVal.jStr pane_type), ("position", JVal.jStr position)]
  let args :=
    if content_id = "" then args
    else if pane_type = "browser" then args ++ [("url", JVal.jStr content_id)]
    else args ++ [("path", JVal.jStr content_id)]
  if shell_type = "" then args else args ++ [("shellType", JVal.jStr shell_type)]

/-- Embedding of the `open_pane` tool. -/
def open_pane (net : Net) (reg pane_type content_id position shell_type : String) :
    String × String × List Request :=
  let r := call_incognide_action net reg "open_pane"
    (openPaneArgs pane_type content_id position shell_type) ""
  (json_dumps_indent2 r.1, r.2.1, r.2.2)

/-- Embedding of the `close_pane` tool. -/
def close_pane (net : Net) (reg pane_id : String) : String × String × List Request :=
  let r := call_incognide_action net reg "close_pane" [("paneId", JVal.jStr pane_id)] ""
  (json_dumps_indent2 r.1, r.2.1, r.2.2)

/-- Embedding of the `navigate_browser` tool. -/
def navigate_browser (net : Net) (reg url pane_id : String) :
    String × String × List Request :=
  let r := call_incognide_action net reg "navigate"
    [("paneId", JVal.jStr pane_id), ("url", JVal.jStr url)] ""
  (json_dumps_indent2 r.1, r.2.1, r.2.2)

/-- Embedding of the `notify` tool. -/
def notify (net : Net) (reg message notification_type : String) (duration : Int) :
    String × String × List Request :=
  let r := call_incognide_action net reg "notify"
    [("message", JVal.jStr message), ("type", JVal.jStr notification_type),
     ("duration", JVal.jInt duration)] ""
  (json_dumps_indent2 r.1, r.2.1, r.2.2)

/-- Embedding of the `spreadsheet_add_row` tool: the `index` key maps to
`index if index >= 0 else None`, i.e. the key is always present, with a
null value when the sentinel `-1` (or any negative) is passed. -/
def spreadsheet_add_row (net : Net) (reg : String) (index : Int) (pane_id : String) :
    String × String × List Request :=
  let r := call_incognide_action net reg "spreadsheet_add_row"
    [("paneId", JVal.jStr pane_id),
     ("index", if 0 ≤ index then JVal.jInt index else JVal.jNull)] ""
  (json_dumps_indent2 r.1, r.2.1, r.2.2)

/-- Embedding of the `presentation_read_slide` tool: the `slideIndex`
key maps to `slide_index if slide_index >= 0 else None`. -/
def presentation_read_slide (net : Net) (reg : String) (slide_index : Int)
    (pane_id : String) : String × String × List Request :=
  let r := call_incognide_action net reg "presentation_read_slide"
    [("paneId", JVal.jStr pane_id),
     ("slideIndex", if 0 ≤ slide_index then JVal.jInt slide_index else JVal.jNull)] ""
  (json_dumps_indent2 r.1, r.2.1, r.2.2)

/-- One invocation of an embedded tool, with its arguments. -/
inductive ToolCall where
  | listWindows
  | setTargetWindow (window_id : String)
  | getTargetWindow
  | openPane (pane_type content_id position shell_type : String)
  | closePane (pane_id : String)
  | navigateBrowser (url pane_id : String)
  | notifyCall (message notification_type : String) (duration : Int)
  | spreadsheetAddRow (index : Int) (pane_id : String)
  | presentationReadSlide (slide_index : Int) (pane_id : String)

/-- Dispatch of a tool call against a network environment and a registry
state; returns (output string, new registry, issued requests). -/
def runTool (tc : ToolCall) (net : Net) (reg : String) :
    String × String × List Request :=
  match tc with
  | .listWindows => list_windows net reg
  | .setTargetWindow w => set_target_window reg w
  | .getTargetWindow => get_target_window reg
  | .openPane a b c d => open_pane net reg a b c d
  | .closePane p => close_pane net reg p
  | .navigateBrowser u p => navigate_browser net reg u p
  | .notifyCall m t d => notify net reg m t d
  | .spreadsheetAddRow i p => spreadsheet_add_row net reg i p
  | .presentationReadSlide i p => presentation_read_slide net reg i p

/-- Whether a tool delegates to the shared relay `call_incognide_action`. -/
def usesRelay : ToolCall → Bool
  | .listWindows => false
  | .setTargetWindow _ => false
  | .getTargetWindow => false
  | _ => true

/-- The number of HTTP requests a tool issues: the two registry tools
talk to no backend; every other embedded tool issues exactly one. -/
def httpRequestCount (tc : ToolCall) : Nat :=
  match tc with
  | .setTargetWindow _ => 0
  | .getTargetWindow => 0
  | _ => 1

/-- The argument mapping of the first POSTed payload in a request trace. -/
def firstPostArgs (rs : List Request) : List (String × JVal) :=
  match rs with
  | Request.post p _ :: _ => p.args
  | _ => []

/-- A network environment where every interaction raises a generic
exception (used to instantiate universally quantified theorems). -/
def net0 : Net where
  post := fun _ => .exn "boom"
  getWindows := .exn "boom"

/-- A network environment where every interaction succeeds with an
empty JSON array body. -/
def netOk : Net where
  post := fun _ => .http200 (.jArr [])
  getWindows := .http200 (.jArr [])

/-- A network environment answering HTTP 404 with body "not found". -/
def net404 : Net where
  post := fun _ => .httpErr 404 "not found"
  getWindows := .httpErr 404 "not found"

/-- A network environment where every interaction fails with a
connection-level client error. -/
def netConn : Net where
  post := fun _ => .clientErr "refused"
  getWindows := .clientErr "refused"

/-- Port oracle: no port is open. -/
def noPorts : Nat → Bool := fun _ => false

/-- Port oracle: only the dev port 5437 is open. -/
def onlyDevPort : Nat → Bool := fun p => decide (p = 5437)

/-- Port oracle: every port is open. -/
def allPorts : Nat → Bool := fun _ => true


/-- C1: for every action relay call, the effective window id sent to the
backend is the explicit per-call window id when that id is non-empty,
otherwise the current Target Registry value; after `set_target_window "W1"`
a call without an explicit id carries `window_id = "W1"`; after
`set_target_window ""` the payload omits the `window_id` key; and the key
is omitted exactly when the effective window id is empty. -/
theorem C1_effective_window_id (net : Net) (reg action wid : String)
    (args : List (String × JVal)) :
    (call_incognide_action net reg action args wid).2.2
      = [Request.post (actionPayload reg action args wid) 30] ∧
    (wid ≠ "" → (actionPayload reg action args wid).window_id = some wid) ∧
    (actionPayload (set_target_window reg "W1").2.1 action args "").window_id
      = some "W1" ∧
    (actionPayload (set_target_window reg "").2.1 action args "").window_id
      = none ∧
    (pyOr wid reg = "" → (actionPayload reg action args wid).window_id = none) ∧
    (wid = "" → reg ≠ "" →
      (actionPayload reg action args wid).window_id = some reg) := by
  refine ⟨rfl, fun h => ?_, rfl, rfl, fun h => ?_, fun h1 h2 => ?_⟩
  · simp [actionPayload, pyOr, h]
  · simp [actionPayload, h]
  · simp [actionPayload, pyOr, h1, h2]

/-- Witness for C1 at concrete inputs: explicit id "X" wins over registry
"R"; registry "W1" set via the tool is used when no explicit id is given;
a cleared registry omits the key; and with both empty the key is absent. -/
theorem C1_effective_window_id_witness :
    (call_incognide_action net0 "R" "a" [] "X").2.2
      = [Request.post (actionPayload "R" "a" [] "X") 30] ∧
    (actionPayload "R" "a" [] "X").window_id = some "X" ∧
    (actionPayload (set_target_window "R" "W1").2.1 "a" [] "").window_id
      = some "W1" ∧
    (actionPayload (set_target_window "R" "").2.1 "a" [] "").window_id = none ∧
    (actionPayload "" "a" [] "").window_id = none ∧
    (actionPayload "R" "a" [] "").window_id = some "R" :=
  ⟨(C1_effective_window_id net0 "R" "a" "X" []).1,
   (C1_effective_window_id net0 "R" "a" "X" []).2.1 (by decide),
   (C1_effective_window_id net0 "R" "a" "X" []).2.2.1,
   (C1_effective_window_id net0 "R" "a" "X" []).2.2.2.1,
   (C1_effective_window_id net0 "" "a" "" []).2.2.2.2.1 (by decide),
   (C1_effective_window_id net0 "R" "a" "" []).2.2.2.2.2 (by decide) (by decide)⟩

/-- C2: the action relay always returns a structured result and never
raises: on a non-200 status it returns the `HTTP <status>: <body>` error
object, on a network-level client error the `Connection error: <msg>`
object, on any other exception the `Error: <msg>` object, and on status
200 the parsed response body unmodified.  Totality of
`call_incognide_action` embodies the never-raises half. -/
theorem C2_relay_error_taxonomy (net : Net) (reg action wid : String)
    (args : List (String × JVal)) :
    (∀ body, net.post (actionPayload reg action args wid) = .http200 body →
      (call_incognide_action net reg action args wid).1 = body) ∧
    (∀ status t, net.post (actionPayload reg action args wid) = .httpErr status t →
      (call_incognide_action net reg action args wid).1
        = errObj ("HTTP " ++ toString status ++ ": " ++ t)) ∧
    (∀ m, net.post (actionPayload reg action args wid) = .clientErr m →
      (call_incognide_action net reg action args wid).1
        = errObj ("Connection error: " ++ m)) ∧
    (∀ m, net.post (actionPayload reg action args wid) = .exn m →
      (call_incognide_action net reg action args wid).1
        = errObj ("Error: " ++ m)) := by
  refine ⟨fun body h => ?_, fun status t h => ?_, fun m h => ?_, fun m h => ?_⟩ <;>
    simp [call_incognide_action, h]

/-- Witness for C2: one concrete relay call per branch of the taxonomy,
matching the spec's `HTTP 404: not found` example. -/
theorem C2_relay_error_taxonomy_witness :
    (call_incognide_action netOk "" "a" [] "").1 = JVal.jArr [] ∧
    (call_incognide_action net404 "" "a" [] "").1
      = errObj ("HTTP " ++ toString 404 ++ ": " ++ "not found") ∧
    (call_incognide_action netConn "" "a" [] "").1
      = errObj ("Connection error: " ++ "refused") ∧
    (call_incognide_action net0 "" "a" [] "").1
      = errObj ("Error: " ++ "boom") :=
  ⟨(C2_relay_error_taxonomy netOk "" "a" "" []).1 (JVal.jArr []) rfl,
   (C2_relay_error_taxonomy net404 "" "a" "" []).2.1 404 "not found" rfl,
   (C2_relay_error_taxonomy netConn "" "a" "" []).2.2.1 "refused" rfl,
   (C2_relay_error_taxonomy net0 "" "a" "" []).2.2.2 "boom" rfl⟩

/-- C3: a non-empty environment override is used verbatim without
probing; otherwise 5337 is probed before 5437 and the first open port
wins; with both closed the result is the fallback dev URL; with only
5437 open it is selected; with both open 5337 is preferred. -/
theorem C3_backend_discovery (env : Option String) (portOpen : Nat → Bool) :
    (env.getD "" ≠ "" → detect_backend_url env portOpen = (env.getD "", [])) ∧
    (portOpen 5337 = false → portOpen 5437 = false →
      detect_backend_url none portOpen = ("http://127.0.0.1:5437", [5337, 5437])) ∧
    (portOpen 5337 = false → portOpen 5437 = true →
      detect_backend_url none portOpen = (baseUrl 5437, [5337, 5437])) ∧
    (portOpen 5337 = true →
      detect_backend_url none portOpen = (baseUrl 5337, [5337])) := by
  refine ⟨fun h => ?_, fun h1 h2 => ?_, fun h1 h2 => ?_, fun h1 => ?_⟩
  · simp [detect_backend_url, h]
  · simp [detect_backend_url, probe, h1, h2]
  · simp [detect_backend_url, probe, h1, h2]
  · simp [detect_backend_url, probe, h1]

/-- Witness for C3: discovery evaluated under the four concrete port
oracles and one explicit override. -/
theorem C3_backend_discovery_witness :
    detect_backend_url (some "http://10.0.0.1:9999") noPorts
      = ("http://10.0.0.1:9999", []) ∧
    detect_backend_url none noPorts = ("http://127.0.0.1:5437", [5337, 5437]) ∧
    detect_backend_url none onlyDevPort = (baseUrl 5437, [5337, 5437]) ∧
    detect_backend_url none allPorts = (baseUrl 5337, [5337]) :=
  ⟨(C3_backend_discovery (some "http://10.0.0.1:9999") noPorts).1 (by decide),
   (C3_backend_discovery none noPorts).2.1 rfl rfl,
   (C3_backend_discovery none onlyDevPort).2.2.1 (by decide) (by decide),
   (C3_backend_discovery none allPorts).2.2.2 rfl⟩

/-- C4: a relay call with a non-empty explicit window id uses that id in
the payload of its single request, and the Target Registry value after
the call equals the value before it, for every prior registry state and
every network outcome. -/
theorem C4_explicit_override_no_mutation (net : Net) (reg action wid : String)
    (args : List (String × JVal)) (h : wid ≠ "") :
    (call_incognide_action net reg action args wid).2.1 = reg ∧
    (actionPayload reg action args wid).window_id = some wid ∧
    (call_incognide_action net reg action args wid).2.2
      = [Request.post (actionPayload reg action args wid) 30] := by
  refine ⟨rfl, ?_, rfl⟩
  simp [actionPayload, pyOr, h]

/-- Witness for C4: explicit id "X" against registry "R" under a failing
network: the payload carries "X" and the registry stays "R". -/
theorem C4_explicit_override_no_mutation_witness :
    (call_incognide_action net0 "R" "a" [] "X").2.1 = "R" ∧
    (actionPayload "R" "a" [] "X").window_id = some "X" ∧
    (call_incognide_action net0 "R" "a" [] "X").2.2
      = [Request.post (actionPayload "R" "a" [] "X") 30] :=
  C4_explicit_override_no_mutation net0 "R" "a" "X" [] (by decide)

/-- C5 counterexample: the claim says every tool's return value is
pretty-printed; `set_target_window("W1")` returns the compact
single-line `json.dumps` of its confirmation object, which differs from
the `indent=2` pretty-printing of that very object. -/
theorem C5_pretty_print_counterexample :
    (runTool (ToolCall.setTargetWindow "W1") net0 "").1
      ≠ json_dumps_indent2 (setTargetVal "W1") := by decide

/-- C5 amended: every tool invocation returns the `json.dumps`
serialization of a single JSON value, hence a syntactically valid JSON
string, and (totality) no error propagates for backend failures; the
relay-backed tools always pretty-print with `indent=2`; the exact
output of each non-relay tool is also fixed: `set_target_window` and
`get_target_window` return the compact dump of their result objects,
and `list_windows` pretty-prints the body on its 200 path while its
non-200, client-error and exception paths return compact error
objects. -/
theorem C5_valid_json_output (tc : ToolCall) (net : Net) (reg : String) :
    (∃ v, (runTool tc net reg).1 = json_dumps_indent2 v ∨
          (runTool tc net reg).1 = json_dumps v) ∧
    (usesRelay tc = true → ∃ v, (runTool tc net reg).1 = json_dumps_indent2 v) ∧
    (∀ w, (runTool (ToolCall.setTargetWindow w) net reg).1
      = json_dumps (setTargetVal w)) ∧
    (runTool ToolCall.getTargetWindow net reg).1 = json_dumps (getTargetVal reg) ∧
    (∀ body, net.getWindows = .http200 body →
      (runTool ToolCall.listWindows net reg).1 = json_dumps_indent2 body) ∧
    (∀ status t, net.getWindows = .httpErr status t →
      (runTool ToolCall.listWindows net reg).1
        = json_dumps (errObj ("HTTP " ++ toString status ++ ": " ++ t))) ∧
    (∀ m, net.getWindows = .clientErr m →
      (runTool ToolCall.listWindows net reg).1 = json_dumps (errObj m)) ∧
    (∀ m, net.getWindows = .exn m →
      (runTool ToolCall.listWindows net reg).1 = json_dumps (errObj m)) := by
  refine ⟨?_, ?_, fun w => rfl, rfl, fun body h => ?_, fun status t h => ?_,
    fun m h => ?_, fun m h => ?_⟩
  · cases tc with
    | listWindows =>
      cases hg : net.getWindows with
      | http200 body => exact ⟨body, Or.inl (by simp [runTool, list_windows, hg])⟩
      | httpErr s t => exact ⟨errObj ("HTTP " ++ toString s ++ ": " ++ t),
          Or.inr (by simp [runTool, list_windows, hg])⟩
      | clientErr m => exact ⟨errObj m, Or.inr (by simp [runTool, list_windows, hg])⟩
      | exn m => exact ⟨errObj m, Or.inr (by simp [runTool, list_windows, hg])⟩
    | setTargetWindow w => exact ⟨setTargetVal w, Or.inr rfl⟩
    | getTargetWindow => exact ⟨getTargetVal reg, Or.inr rfl⟩
    | openPane a b c d => exact ⟨_, Or.inl rfl⟩
    | closePane p => exact ⟨_, Or.inl rfl⟩
    | navigateBrowser u p => exact ⟨_, Or.inl rfl⟩
    | notifyCall m t d => exact ⟨_, Or.inl rfl⟩
    | spreadsheetAddRow i p => exact ⟨_, Or.inl rfl⟩
    | presentationReadSlide i p => exact ⟨_, Or.inl rfl⟩
  · cases tc with
    | listWindows => exact fun h => nomatch h
    | setTargetWindow w => exact fun h => nomatch h
    | getTargetWindow => exact fun h => nomatch h
    | openPane a b c d => exact fun _ => ⟨_, rfl⟩
    | closePane p => exact fun _ => ⟨_, rfl⟩
    | navigateBrowser u p => exact fun _ => ⟨_, rfl⟩
    | notifyCall m t d => exact fun _ => ⟨_, rfl⟩
    | spreadsheetAddRow i p => exact fun _ => ⟨_, rfl⟩
    | presentationReadSlide i p => exact fun _ => ⟨_, rfl⟩
  · simp [runTool, list_windows, h]
  · simp [runTool, list_windows, h]
  · simp [runTool, list_windows, h]
  · simp [runTool, list_windows, h]

/-- Witness for C5 amended: a relay-backed tool under a failing network
yields the pretty-printed serialization of some JSON value, the two
registry tools yield the compact dump of their result objects, and
`list_windows` pretty-prints on a 200 body yet is compact on a
client error. -/
theorem C5_valid_json_output_witness :
    (∃ v, (runTool (ToolCall.closePane "active") net0 "").1
      = json_dumps_indent2 v) ∧
    (runTool (ToolCall.setTargetWindow "W1") net0 "").1
      = json_dumps (setTargetVal "W1") ∧
    (runTool ToolCall.getTargetWindow net0 "W1").1
      = json_dumps (getTargetVal "W1") ∧
    (runTool ToolCall.listWindows netOk "").1
      = json_dumps_indent2 (JVal.jArr []) ∧
    (runTool ToolCall.listWindows netConn "").1
      = json_dumps (errObj "refused") :=
  ⟨(C5_valid_json_output (ToolCall.closePane "active") net0 "").2.1 rfl,
   (C5_valid_json_output (ToolCall.closePane "active") net0 "").2.2.1 "W1",
   (C5_valid_json_output (ToolCall.closePane "active") net0 "W1").2.2.2.1,
   (C5_valid_json_output (ToolCall.closePane "active") netOk "").2.2.2.2.1
     (JVal.jArr []) rfl,
   (C5_valid_json_output (ToolCall.closePane "active") netConn "").2.2.2.2.2.2.1
     "refused" rfl⟩

/-- C6 counterexample: the claim says every tool call produces exactly
one HTTP request; `set_target_window` issues none. -/
theorem C6_zero_requests_counterexample :
    ¬ (runTool (ToolCall.setTargetWindow "W1") net0 "").2.2.length = 1 := by
  decide

/-- C6 amended: every relay-backed tool issues exactly one POST of an
action payload (30 second timeout) and yields one result;
`list_windows` issues exactly one GET of the windows endpoint; the two
registry tools `set_target_window` and `get_target_window` issue no
HTTP request at all. -/
theorem C6_one_request_per_tool (tc : ToolCall) (net : Net) (reg : String) :
    (runTool tc net reg).2.2.length = httpRequestCount tc ∧
    (usesRelay tc = true → ∃ p, (runTool tc net reg).2.2 = [Request.post p 30]) ∧
    (runTool ToolCall.listWindows net reg).2.2 = [Request.getWindows 10] := by
  refine ⟨?_, ?_, rfl⟩
  · cases tc <;> rfl
  · cases tc with
    | listWindows => exact fun h => nomatch h
    | setTargetWindow w => exact fun h => nomatch h
    | getTargetWindow => exact fun h => nomatch h
    | openPane a b c d => exact fun _ => ⟨_, rfl⟩
    | closePane p => exact fun _ => ⟨_, rfl⟩
    | navigateBrowser u p => exact fun _ => ⟨_, rfl⟩
    | notifyCall m t d => exact fun _ => ⟨_, rfl⟩
    | spreadsheetAddRow i p => exact fun _ => ⟨_, rfl⟩
    | presentationReadSlide i p => exact fun _ => ⟨_, rfl⟩

/-- Witness for C6 amended: `set_target_window` issues zero requests
while `close_pane` issues exactly one POST. -/
theorem C6_one_request_per_tool_witness :
    (runTool (ToolCall.setTargetWindow "W1") net0 "").2.2.length
      = httpRequestCount (ToolCall.setTargetWindow "W1") ∧
    ∃ p, (runTool (ToolCall.closePane "active") net0 "").2.2
      = [Request.post p 30] :=
  ⟨(C6_one_request_per_tool (ToolCall.setTargetWindow "W1") net0 "").1,
   (C6_one_request_per_tool (ToolCall.closePane "active") net0 "").2.1 rfl⟩

/-- C7 counterexample: the claim says the sentinel index is translated
into an absent field; `spreadsheet_add_row` with `index = -1` sends an
argument mapping in which the `index` key is present, bound to null. -/
theorem C7_sentinel_absent_counterexample :
    List.lookup "index"
      (firstPostArgs (runTool (ToolCall.spreadsheetAddRow (-1) "active") net0 "").2.2)
      = some JVal.jNull ∧
    (List.lookup "index"
      (firstPostArgs (runTool (ToolCall.spreadsheetAddRow (-1) "active") net0 "").2.2)).isSome
      = true :=
  ⟨rfl, rfl⟩

/-- C7 amended: the wrappers contain no branching beyond optional-field
defaulting, but the sentinel "not specified" index is translated into a
null-valued field, not an absent one: `spreadsheet_add_row` always sends
an `index` key (null when negative) and `presentation_read_slide` always
sends a `slideIndex` key (null when negative); by contrast `open_pane`
genuinely omits its optional keys when their parameters are empty. -/
theorem C7_optional_field_defaulting (net : Net)
    (reg pane_id pane_type content_id position shell_type : String)
    (index slide_index : Int) :
    List.lookup "index" (firstPostArgs (spreadsheet_add_row net reg index pane_id).2.2)
      = some (if 0 ≤ index then JVal.jInt index else JVal.jNull) ∧
    List.lookup "slideIndex"
      (firstPostArgs (presentation_read_slide net reg slide_index pane_id).2.2)
      = some (if 0 ≤ slide_index then JVal.jInt slide_index else JVal.jNull) ∧
    (content_id = "" → shell_type = "" →
      openPaneArgs pane_type content_id position shell_type
        = [("type", JVal.jStr pane_type), ("position", JVal.jStr position)]) := by
  refine ⟨rfl, rfl, fun h1 h2 => ?_⟩
  simp [openPaneArgs, h1, h2]

/-- Witness for C7 amended: a non-negative index is sent as itself, the
sentinel is sent as null, and `open_pane` with empty optional parameters
sends only `type` and `position`. -/
theorem C7_optional_field_defaulting_witness :
    List.lookup "index" (firstPostArgs (spreadsheet_add_row net0 "" 5 "active").2.2)
      = some (if (0 : Int) ≤ 5 then JVal.jInt 5 else JVal.jNull) ∧
    List.lookup "slideIndex"
      (firstPostArgs (presentation_read_slide net0 "" (-1) "active").2.2)
      = some (if (0 : Int) ≤ -1 then JVal.jInt (-1) else JVal.jNull) ∧
    openPaneArgs "editor" "" "right" ""
      = [("type", JVal.jStr "editor"), ("position", JVal.jStr "right")] :=
  ⟨(C7_optional_field_defaulting net0 "" "active" "editor" "" "right" "" 5 (-1)).1,
   (C7_optional_field_defaulting net0 "" "active" "editor" "" "right" "" 5 (-1)).2.1,
   (C7_optional_field_defaulting net0 "" "active" "editor" "" "right" "" 5 (-1)).2.2
     rfl rfl⟩

/-- C8: for every string `w`, `set_target_window w` succeeds and its
confirmation carries `w` as `target_window_id`; a subsequent
`get_target_window` reports `target_window_id = w` and `is_set` true
exactly when `w` is non-empty; the empty string is a valid explicit
clear. -/
theorem C8_target_roundtrip (reg w : String) :
    (set_target_window reg w).2.1 = w ∧
    (set_target_window reg w).1 = json_dumps (setTargetVal w) ∧
    List.lookup "success" (objFields (setTargetVal w)) = some (JVal.jBool true) ∧
    List.lookup "target_window_id" (objFields (setTargetVal w))
      = some (JVal.jStr w) ∧
    (get_target_window (set_target_window reg w).2.1).1
      = json_dumps (getTargetVal w) ∧
    List.lookup "target_window_id" (objFields (getTargetVal w))
      = some (JVal.jStr w) ∧
    List.lookup "is_set" (objFields (getTargetVal w))
      = some (JVal.jBool (decide (w ≠ ""))) :=
  ⟨rfl, rfl, rfl, rfl, rfl, rfl, rfl⟩

/-- C9: `list_windows` bypasses the shared relay: it issues one GET with
a 10 second timeout, its non-200 branch uses the `HTTP <status>: <body>`
format, and its single exception handler returns the exception message
verbatim, with no `Connection error: ` or `Error: ` prefix even for
network-level client errors. -/
theorem C9_list_windows_independent (net : Net) (reg : String) :
    (list_windows net reg).2.2 = [Request.getWindows 10] ∧
    (∀ status t, net.getWindows = .httpErr status t →
      (list_windows net reg).1
        = json_dumps (errObj ("HTTP " ++ toString status ++ ": " ++ t))) ∧
    (∀ m, net.getWindows = .clientErr m →
      (list_windows net reg).1 = json_dumps (errObj m)) ∧
    (∀ m, net.getWindows = .exn m →
      (list_windows net reg).1 = json_dumps (errObj m)) := by
  refine ⟨rfl, fun status t h => ?_, fun m h => ?_, fun m h => ?_⟩ <;>
    simp [list_windows, h]

/-- Witness for C9: the three failure branches of `list_windows` at
concrete networks; a client error yields the bare message "refused". -/
theorem C9_list_windows_independent_witness :
    (list_windows net0 "").2.2 = [Request.getWindows 10] ∧
    (list_windows net404 "").1
      = json_dumps (errObj ("HTTP " ++ toString 404 ++ ": " ++ "not found")) ∧
    (list_windows netConn "").1 = json_dumps (errObj "refused") ∧
    (list_windows net0 "").1 = json_dumps (errObj "boom") :=
  ⟨(C9_list_windows_independent net0 "").1,
   (C9_list_windows_independent net404 "").2.1 404 "not found" rfl,
   (C9_list_windows_independent netConn "").2.2.1 "refused" rfl,
   (C9_list_windows_independent net0 "").2.2.2 "boom" rfl⟩

/-- C10: an environment override set to the empty string is treated as
absent: discovery behaves exactly as in the unset case, and the
explicit-override branch (no probing, so an empty probe trace) is taken
exactly when the override value is non-empty. -/
theorem C10_empty_override_like_unset (env : Option String) (portOpen : Nat → Bool) :
    detect_backend_url (some "") portOpen = detect_backend_url none portOpen ∧
    ((detect_backend_url env portOpen).2 = [] ↔ env.getD "" ≠ "") := by
  refine ⟨rfl, ?_⟩
  by_cases h : env.getD "" = ""
  · simp only [h, ne_eq, not_true_eq_false, iff_false]
    cases hp : portOpen 5337 <;> cases hq : portOpen 5437 <;>
      simp [detect_backend_url, probe, h, hp, hq]
  · simp [detect_backend_url, h]

end Incognide
